import Mathlib

/- Batteries marks the `Rat` arithmetic operations `@[irreducible]`, which
blocks `decide`/`rfl` evaluation of the executable model on concrete
inputs; restore the usual reducibility locally. -/
attribute [local semireducible] Rat.mul Rat.add Rat.sub Rat.inv

/-!
# Campus-Marketplace: verification of the conversation / offer-negotiation core

Shallow embedding of `backend/app/routes/chat.py` (conversation creation,
messaging, offer negotiation, transactions, ratings) over the relational
models in `backend/app/models` (chat, transaction, rating, notification).

Modelling conventions, matching the source:

* Database rows are Lean structures mirroring the SQLAlchemy columns that the
  chat routes read or write.  Audit columns (`created_by` / `updated_by` /
  `created_at` on `BaseModel`) and presentation-only response fields
  (usernames in payloads, profile-picture URLs) are not referenced by any
  property below and are omitted.
* Timestamps are abstract ticks (`Nat`); each request handler receives the
  current time `now` standing for `datetime.utcnow()`.
* Money is exact rational arithmetic (`Rat`).  Python's `int(x)` truncation
  toward zero is `py_int`; `round(x, 2)` (banker's rounding) is `round2`.
* Python truthiness of nullable integer columns (`if not conversation.
  pending_offer_price`) is `truthyI` / `truthyN`: `None` and `0` are falsy.
* SQLAlchemy identity: `db.add(obj)` leaves `obj.id` unset (`None`) until the
  session flushes; ids are generated from the monotone counter `next_id` at
  commit time.  Reading `obj.id` between `add` and `commit` yields `None` —
  this is exactly what `respond_to_offer` does when it assigns
  `conversation.transaction_id = transaction.id` before the flush.
* `hasattr(conversation, 'pending_offer_price')` etc. are `True` (the columns
  exist in `models/chat.py`), while `hasattr(conversation, 'user1_status')`
  is `False` (those columns are commented out pending migration), and the
  handlers are embedded accordingly.
* An `HTTPException` aborts the handler before any commit, so fallible
  handlers return `Except HttpError (DB × …)`: an error carries no new state.
* WebSocket pushes are best-effort sends to currently connected users; the
  connection registry is the list `conns` of connected user ids and each
  handler returns the list of events it pushed.
-/

namespace Marketplace

/-- A user row (`models/user.py` is consumed by the chat routes through
`id`, `username`, `full_name` only). -/
structure User where
  id : Nat
  username : String
  full_name : String
deriving Repr, DecidableEq

/-- An item row, as read and written by the chat routes
(`item.seller_id`, `item.title`, `item.price`, `item.status`). -/
structure Item where
  id : Nat
  seller_id : Nat
  title : String
  price : Rat
  status : String
deriving Repr, DecidableEq

/-- Columns of `Conversation` in `models/chat.py` used by the routes. -/
structure Conversation where
  id : Nat
  user1_id : Nat
  user2_id : Nat
  item_id : Option Nat
  last_message_at : Option Nat
  is_sold : Bool
  sold_at : Option Nat
  transaction_id : Option Nat
  pending_offer_price : Option Int
  pending_offer_from_user_id : Option Nat
  pending_offer_at : Option Nat
  is_ended : Bool
  ended_at : Option Nat
  is_reported : Bool
  reported_at : Option Nat
  reported_by : Option Nat
  report_reason : Option String
deriving Repr, DecidableEq

/-- Columns of `Message` in `models/chat.py`. -/
structure Message where
  id : Nat
  conversation_id : Nat
  sender_id : Nat
  content : String
  is_read : Bool
  read_at : Option Nat
  created_at : Nat
deriving Repr, DecidableEq

/-- Columns of `Transaction` in `models/transaction.py`.  `id` is `Option Nat`
because a freshly constructed ORM object has no id until the session
flushes. -/
structure TransactionRow where
  id : Option Nat
  item_id : Nat
  seller_id : Nat
  buyer_id : Nat
  conversation_id : Option Nat
  sale_price : Rat
  original_price : Option Rat
  is_completed : Bool
  completed_at : Option Nat
deriving Repr, DecidableEq

/-- The `NotificationType` enum of `models/notification.py`. -/
inductive NotificationType where
  | message
  | item_interest
  | item_sold
  | system
deriving Repr, DecidableEq

/-- Columns of `Notification` in `models/notification.py`.  The column
`type` is rendered `ntype` (`type` is a Lean keyword). -/
structure NotificationRow where
  id : Nat
  user_id : Nat
  ntype : NotificationType
  title : String
  message : String
  is_read : Bool
  read_at : Option Nat
  related_item_id : Option Nat
  related_user_id : Option Nat
  related_conversation_id : Option Nat
deriving Repr, DecidableEq

/-- Columns of `Rating` in `models/rating.py`. -/
structure RatingRow where
  id : Nat
  transaction_id : Nat
  rater_id : Nat
  rated_user_id : Nat
  rating : Int
  comment : Option String
deriving Repr, DecidableEq

/-- The relational store visible to the chat routes, plus the id generator
(`next_id`) standing for the autoincrement sequences. -/
structure DB where
  users : List User
  items : List Item
  conversations : List Conversation
  messages : List Message
  transactions : List TransactionRow
  notifications : List NotificationRow
  ratings : List RatingRow
  next_id : Nat
deriving Repr, DecidableEq

/-- Data of an `HTTPException(status_code, detail)`. -/
structure HttpError where
  status : Nat
  detail : String
deriving Repr, DecidableEq

/-- Python truthiness of an `Optional[int]` column (`None` and `0` falsy). -/
def truthyI : Option Int → Bool
  | none => false
  | some n => n != 0

/-- Python truthiness of an `Optional[int]` id column. -/
def truthyN : Option Nat → Bool
  | none => false
  | some n => n != 0

/-- Python `int(x)`: truncation toward zero. -/
def py_int (q : Rat) : Int :=
  if 0 ≤ q then q.floor else -((-q).floor)

/-- Python `round(x, 2)`: round half to even at two decimal places. -/
def round2 (q : Rat) : Rat :=
  let s := q * 100
  let f := s.floor
  let r := s - (f : Rat)
  let n : Int :=
    if r < 1/2 then f
    else if r > 1/2 then f + 1
    else if Even f then f else f + 1
  (n : Rat) / 100

/-- Replace the first element satisfying `p` by its image under `f`
(SQLAlchemy mutates the single object returned by `.first()`; the commit
writes that object back). -/
def replaceFirstWhere (p : α → Bool) (f : α → α) : List α → List α
  | [] => []
  | x :: xs => if p x then f x :: xs else x :: replaceFirstWhere p f xs

/-- The symmetric participant match used by `create_conversation`
(`or_(and_(user1==a, user2==b), and_(user1==b, user2==a))`). -/
def pairPred (a b : Nat) (c : Conversation) : Bool :=
  (c.user1_id == a && c.user2_id == b) || (c.user1_id == b && c.user2_id == a)

/-- Helper `create_notification` (chat.py lines 69–93): inserts a `Notification` row
and commits.  Returns the refreshed row. -/
def create_notification (db : DB) (user_id : Nat) (ntype : NotificationType)
    (title message : String) (related_item_id related_user_id
    related_conversation_id : Option Nat) : DB × NotificationRow :=
  let n : NotificationRow :=
    { id := db.next_id
      user_id := user_id
      ntype := ntype
      title := title
      message := message
      is_read := false
      read_at := none
      related_item_id := related_item_id
      related_user_id := related_user_id
      related_conversation_id := related_conversation_id }
  ({ db with notifications := db.notifications ++ [n], next_id := db.next_id + 1 }, n)

/-- The `conversation_updated` payload built by
`broadcast_conversation_update` (chat.py lines 108–152). -/
structure ConvUpdatePayload where
  conversation_id : Nat
  item_id : Option Nat
  is_sold : Bool
  is_ended : Bool
  transaction_id : Option Nat
  transaction : Option TransactionRow
  item_title : Option String
  item_status : Option String
  item_price : Option Rat
deriving Repr, DecidableEq

/-- Events pushed over the per-user WebSocket channels, tagged as in the
source: an envelope of a type tag and a data object. -/
inductive Event where
  | notification (user_id : Nat) (n : NotificationRow)
  | message (user_id : Nat) (m : Message)
  | conversation_updated (user_id : Nat) (p : ConvUpdatePayload)
  | purchase_offer (user_id : Nat) (conversation_id : Nat) (item_id : Nat)
      (offer_price : Rat) (original_price : Rat) (is_from_seller : Bool)
  | item_sold (user_id : Nat) (transaction_id : Option Nat)
      (conversation_id : Nat) (item_id : Nat) (sale_price : Rat)
  | notifications_read (user_id : Nat) (conversation_id : Nat) (count : Nat)
deriving Repr, DecidableEq

/-- The payload `broadcast_conversation_update` (chat.py lines 108–152)
builds from the conversation row.  `getattr(conversation, "transaction_id",
None)` is plain field access here since the column exists. -/
def convUpdatePayload (db : DB) (conversation : Conversation) :
    ConvUpdatePayload :=
  let item := match conversation.item_id with
    | none => none
    | some iid => db.items.find? (fun (it : Item) => it.id == iid)
  let transaction_data :=
    if truthyN conversation.transaction_id then
      db.transactions.find? (fun t => t.id == conversation.transaction_id)
    else none
  { conversation_id := conversation.id
    item_id := conversation.item_id
    is_sold := conversation.is_sold
    is_ended := conversation.is_ended
    transaction_id := conversation.transaction_id
    transaction := transaction_data
    item_title := item.map Item.title
    item_status := item.map Item.status
    item_price := item.map Item.price }

/-- Handler helper `broadcast_conversation_update` (chat.py lines 108–152):
sends the one
payload to each currently connected participant. -/
def broadcast_conversation_update (db : DB) (conns : List Nat)
    (conversation : Conversation) : List Event :=
  ([conversation.user1_id, conversation.user2_id].filter
      (fun u => conns.contains u)).map
    (fun u => Event.conversation_updated u (convUpdatePayload db conversation))

/-- Request body `ConversationCreate` of `schemas/chat.py`. -/
structure ConversationCreate where
  user2_id : Nat
  item_id : Option Nat
deriving Repr, DecidableEq

/-- The slice of `ConversationResponse` carrying database-derived state
(presentation-only fields — usernames, profile pictures, last-message echo —
are omitted). -/
structure ConversationResponse where
  id : Nat
  user1_id : Nat
  user2_id : Nat
  item_id : Option Nat
  other_user_id : Nat
  unread_count : Nat
  status : String
  is_sold : Bool
  is_ended : Bool
  transaction_id : Option Nat
  transaction : Option TransactionRow
  pending_offer_price : Option Rat
  pending_offer_from_user_id : Option Nat
  pending_offer_at : Option Nat
deriving Repr, DecidableEq

/-- The response `create_conversation` builds for an existing conversation
(chat.py lines 239–311).  `user1_status`/`user2_status` columns do not exist
yet, so `status` is always `"active"`. -/
def existingConversationResponse (db : DB) (user1_id user2_id : Nat)
    (existing : Conversation) : ConversationResponse :=
  let other_user_id := if existing.user1_id == user1_id then user2_id
    else existing.user1_id
  let unread_count := (db.messages.filter (fun m =>
    m.conversation_id == existing.id && m.sender_id != user1_id &&
      m.is_read == false)).length
  let transaction_response :=
    if truthyN existing.transaction_id then
      db.transactions.find? (fun t => t.id == existing.transaction_id)
    else none
  let pending_price :=
    if truthyI existing.pending_offer_price then
      some ((existing.pending_offer_price.getD 0 : Rat) / 100)
    else none
  { id := existing.id
    user1_id := existing.user1_id
    user2_id := existing.user2_id
    item_id := existing.item_id
    other_user_id := other_user_id
    unread_count := unread_count
    status := "active"
    is_sold := existing.is_sold
    is_ended := existing.is_ended
    transaction_id := existing.transaction_id
    transaction := transaction_response
    pending_offer_price := pending_price
    pending_offer_from_user_id := existing.pending_offer_from_user_id
    pending_offer_at := existing.pending_offer_at }

/-- The in-place update `create_conversation` applies to an existing
conversation when a different, truthy item id is supplied (chat.py lines
221–231).  Note: the pending-offer columns are NOT touched. -/
def reassignItem (item_id : Option Nat) (c : Conversation) : Conversation :=
  let c := { c with item_id := item_id }
  let c := if c.is_ended then { c with is_ended := false, ended_at := none }
    else c
  let c := if c.is_sold then
      { c with is_sold := false, sold_at := none, transaction_id := none }
    else c
  c

/-- Endpoint `POST /conversations` — `create_conversation` (chat.py lines
186–339). -/
def create_conversation (db : DB) (conns : List Nat) (current_user_id : Nat)
    (conversation_data : ConversationCreate) :
    Except HttpError (DB × List Event × ConversationResponse) :=
  let user1_id := current_user_id
  let user2_id := conversation_data.user2_id
  if user1_id == user2_id then
    .error ⟨400, "Cannot create conversation with yourself"⟩
  else
    match db.users.find? (fun u => u.id == user2_id) with
    | none => .error ⟨404, "User not found"⟩
    | some _user2 =>
      match db.conversations.find? (pairPred user1_id user2_id) with
      | some existing =>
        if truthyN conversation_data.item_id &&
            existing.item_id != conversation_data.item_id then
          let existing' := reassignItem conversation_data.item_id existing
          let convs' := replaceFirstWhere (pairPred user1_id user2_id)
            (reassignItem conversation_data.item_id) db.conversations
          let db' := { db with conversations := convs' }
          let events := broadcast_conversation_update db' conns existing'
          .ok (db', events,
            existingConversationResponse db' user1_id user2_id existing')
        else
          .ok (db, [], existingConversationResponse db user1_id user2_id existing)
      | none =>
        let conversation : Conversation :=
          { id := db.next_id
            user1_id := user1_id
            user2_id := user2_id
            item_id := conversation_data.item_id
            last_message_at := none
            is_sold := false
            sold_at := none
            transaction_id := none
            pending_offer_price := none
            pending_offer_from_user_id := none
            pending_offer_at := none
            is_ended := false
            ended_at := none
            is_reported := false
            reported_at := none
            reported_by := none
            report_reason := none }
        let db' := { db with
          conversations := db.conversations ++ [conversation]
          next_id := db.next_id + 1 }
        .ok (db', [],
          { id := conversation.id
            user1_id := user1_id
            user2_id := user2_id
            item_id := conversation.item_id
            other_user_id := user2_id
            unread_count := 0
            status := "active"
            is_sold := false
            is_ended := false
            transaction_id := none
            transaction := none
            pending_offer_price := none
            pending_offer_from_user_id := none
            pending_offer_at := none })

/-- Python two-decimal formatting of an exact rational: fixed-point
rendering (round half to even, as CPython formats floats). -/
def fmt2 (q : Rat) : String :=
  let cents : Int := (round2 q * 100).floor
  let sign := if cents < 0 then "-" else ""
  let a := cents.natAbs
  let r := a % 100
  sign ++ toString (a / 100) ++ "." ++ (if r < 10 then "0" else "") ++ toString r

/-- Endpoint `POST /messages` — `create_message` (chat.py lines 525–631). -/
def create_message (db : DB) (conns : List Nat) (current_user : User)
    (conversation_id : Nat) (content : String) (now : Nat) :
    Except HttpError (DB × List Event × Message) :=
  match db.conversations.find? (fun c => c.id == conversation_id) with
  | none => .error ⟨404, "Conversation not found"⟩
  | some conversation =>
    if conversation.user1_id != current_user.id &&
        conversation.user2_id != current_user.id then
      .error ⟨403, "Not authorized to send messages in this conversation"⟩
    else
      let message : Message :=
        { id := db.next_id
          conversation_id := conversation_id
          sender_id := current_user.id
          content := content
          is_read := false
          read_at := none
          created_at := now }
      let conversation' := { conversation with last_message_at := some now }
      let db1 : DB :=
        { db with
          messages := db.messages ++ [message]
          conversations := replaceFirstWhere (fun c => c.id == conversation_id)
            (fun c => { c with last_message_at := some now }) db.conversations
          next_id := db.next_id + 1 }
      let recipient_id := if conversation.user1_id == current_user.id then
        conversation.user2_id else conversation.user1_id
      match db1.users.find? (fun u => u.id == recipient_id) with
      | some _recipient =>
        let created := create_notification db1 recipient_id
          NotificationType.message "New Message"
          (current_user.full_name ++ " sent you a message")
          none (some current_user.id) (some conversation.id)
        let db2 := created.1
        let notification := created.2
        let notifEvents := if conns.contains recipient_id then
          [Event.notification recipient_id notification] else []
        let msgEvents := if conns.contains recipient_id then
          [Event.message recipient_id message] else []
        let updEvents := broadcast_conversation_update db2 conns conversation'
        .ok (db2, notifEvents ++ msgEvents ++ updEvents, message)
      | none =>
        let msgEvents := if conns.contains recipient_id then
          [Event.message recipient_id message] else []
        let updEvents := broadcast_conversation_update db1 conns conversation'
        .ok (db1, msgEvents ++ updEvents, message)

/-- The pending-offer fields `send_purchase_offer` writes (chat.py lines
839–843). -/
def setPendingOffer (price_cents : Int) (from_user : Nat) (now : Nat)
    (c : Conversation) : Conversation :=
  { c with
    pending_offer_price := some price_cents
    pending_offer_from_user_id := some from_user
    pending_offer_at := some now
    last_message_at := some now }

/-- Endpoint POST /conversations/:id/offer — `send_purchase_offer` (chat.py lines
792–920).  `sale_price` is validated `> 0` by `TransactionCreate`. -/
def send_purchase_offer (db : DB) (conns : List Nat) (current_user : User)
    (conversation_id : Nat) (sale_price : Rat) (now : Nat) :
    Except HttpError (DB × List Event × Rat) :=
  match db.conversations.find? (fun c => c.id == conversation_id) with
  | none => .error ⟨404, "Conversation not found"⟩
  | some conversation =>
    if conversation.user1_id != current_user.id &&
        conversation.user2_id != current_user.id then
      .error ⟨403, "Not authorized to send offers in this conversation"⟩
    else if !truthyN conversation.item_id then
      .error ⟨400, "Conversation is not associated with an item"⟩
    else
      match db.items.find? (fun it => some it.id == conversation.item_id) with
      | none => .error ⟨404, "Item not found"⟩
      | some item =>
        let other_user_id := if conversation.user1_id == current_user.id then
          conversation.user2_id else conversation.user1_id
        let is_seller := item.seller_id == current_user.id
        if conversation.is_sold then
          .error ⟨400, "Item already sold in this conversation"⟩
        else
          let conversation' := setPendingOffer (py_int (sale_price * 100))
            current_user.id now conversation
          let offer_message_content := if is_seller then
            "💰 Purchase offer: $" ++ fmt2 sale_price
          else
            "💵 Offer: $" ++ fmt2 sale_price
          let offer_message : Message :=
            { id := db.next_id
              conversation_id := conversation_id
              sender_id := current_user.id
              content := offer_message_content
              is_read := false
              read_at := none
              created_at := now }
          let db1 : DB :=
            { db with
              messages := db.messages ++ [offer_message]
              conversations := replaceFirstWhere
                (fun c => c.id == conversation_id)
                (setPendingOffer (py_int (sale_price * 100)) current_user.id now)
                db.conversations
              next_id := db.next_id + 1 }
          let db2 :=
            match db1.users.find? (fun u => u.id == other_user_id) with
            | some _other_user =>
              let title := if is_seller then "New Purchase Offer" else "New Offer"
              let body := if is_seller then
                current_user.full_name ++ " offered to sell " ++ item.title ++
                  " for $" ++ fmt2 sale_price
              else
                current_user.full_name ++ " made an offer of $" ++
                  fmt2 sale_price ++ " for " ++ item.title
              (create_notification db1 other_user_id NotificationType.system
                title body (some item.id) (some current_user.id)
                (some conversation_id)).1
            | none => db1
          let offerEvents := if conns.contains other_user_id then
            [Event.purchase_offer other_user_id conversation_id item.id
              sale_price item.price is_seller] else []
          let msgEvents := if conns.contains other_user_id then
            [Event.message other_user_id offer_message] else []
          let _ := conversation'
          .ok (db2, offerEvents ++ msgEvents, sale_price)

/-- Python truthiness of an optional float (`None` and `0.0` falsy). -/
def truthyR : Option Rat → Bool
  | none => false
  | some q => q != 0

/-- The three outcomes of `respond_to_offer`. -/
inductive RespondResult where
  | accepted (t : TransactionRow)
  | rejected
  | countered (offer_price : Rat)
deriving Repr, DecidableEq

/-- The conversation update the accept branch performs (chat.py lines
986–995 and 1005).  `txn_id_at_assignment` is the value of
`transaction.id` at line 989: the `Transaction` was `db.add`-ed but not yet
flushed, so its id attribute is still unset. -/
def applyAccept (txn_id_at_assignment : Option Nat) (now : Nat)
    (c : Conversation) : Conversation :=
  { c with
    is_sold := true
    sold_at := some now
    transaction_id := txn_id_at_assignment
    is_ended := true
    ended_at := some now
    pending_offer_price := none
    pending_offer_from_user_id := none
    pending_offer_at := none
    last_message_at := some now }

/-- The conversation update the reject branch performs (chat.py lines
1079–1083 and 1093). -/
def applyReject (now : Nat) (c : Conversation) : Conversation :=
  { c with
    pending_offer_price := none
    pending_offer_from_user_id := none
    pending_offer_at := none
    last_message_at := some now }

/-- Endpoint POST /conversations/:id/respond-offer — `respond_to_offer` (chat.py
lines 923–1190). -/
def respond_to_offer (db : DB) (conns : List Nat) (current_user : User)
    (conversation_id : Nat) (action : String) (counter_price : Option Rat)
    (now : Nat) : Except HttpError (DB × List Event × RespondResult) :=
  match db.conversations.find? (fun c => c.id == conversation_id) with
  | none => .error ⟨404, "Conversation not found"⟩
  | some conversation =>
    if conversation.user1_id != current_user.id &&
        conversation.user2_id != current_user.id then
      .error ⟨403, "Not authorized to respond to offers in this conversation"⟩
    else if !truthyI conversation.pending_offer_price ||
        !truthyN conversation.pending_offer_from_user_id then
      .error ⟨400, "No pending offer to respond to"⟩
    else
      match db.items.find? (fun it => some it.id == conversation.item_id) with
      | none => .error ⟨404, "Item not found"⟩
      | some item =>
        -- seller is always the item owner
        let seller_id := item.seller_id
        let buyer_id := if conversation.user1_id == seller_id then
          conversation.user2_id else conversation.user1_id
        if action == "accept" then
          let sale_price := (conversation.pending_offer_price.getD 0 : Rat) / 100
          -- the ORM object: id unset until the flush at commit
          let transaction : TransactionRow :=
            { id := none
              item_id := conversation.item_id.getD 0
              seller_id := seller_id
              buyer_id := buyer_id
              conversation_id := some conversation_id
              sale_price := sale_price
              original_price := some item.price
              is_completed := true
              completed_at := some now }
          let conversation' := applyAccept transaction.id now conversation
          let accept_message : Message :=
            { id := db.next_id + 1
              conversation_id := conversation_id
              sender_id := current_user.id
              content := "✅ Accepted offer: $" ++ fmt2 sale_price
              is_read := false
              read_at := none
              created_at := now }
          -- db.commit(): flush assigns the transaction id, writes item
          -- status, conversation update and the acceptance message, all in
          -- one transaction scope
          let committed : TransactionRow := { transaction with id := some db.next_id }
          let db1 : DB :=
            { db with
              transactions := db.transactions ++ [committed]
              items := replaceFirstWhere (fun it => some it.id == conversation.item_id)
                (fun it => { it with status := "SOLD" }) db.items
              conversations := replaceFirstWhere (fun c => c.id == conversation_id)
                (applyAccept transaction.id now) db.conversations
              messages := db.messages ++ [accept_message]
              next_id := db.next_id + 2 }
          let other_party_id := if current_user.id == seller_id then buyer_id
            else seller_id
          let db2 :=
            match db1.users.find? (fun u => u.id == other_party_id) with
            | some _other_party =>
              (create_notification db1 other_party_id NotificationType.system
                "Offer Accepted!"
                (current_user.full_name ++ " accepted your offer for " ++ item.title)
                (some item.id) (some current_user.id) (some conversation_id)).1
            | none => db1
          let soldEvents := ([seller_id, buyer_id].filter
            (fun u => conns.contains u)).map
            (fun u => Event.item_sold u committed.id conversation_id item.id
              sale_price)
          let updEvents := broadcast_conversation_update db2 conns conversation'
          .ok (db2, soldEvents ++ updEvents, .accepted committed)
        else if action == "reject" then
          let conversation' := applyReject now conversation
          let reject_message : Message :=
            { id := db.next_id
              conversation_id := conversation_id
              sender_id := current_user.id
              content := "❌ Rejected the offer"
              is_read := false
              read_at := none
              created_at := now }
          let db1 : DB :=
            { db with
              messages := db.messages ++ [reject_message]
              conversations := replaceFirstWhere (fun c => c.id == conversation_id)
                (applyReject now) db.conversations
              next_id := db.next_id + 1 }
          -- chat.py line 1098 reads `conversation.pending_offer_from_user_id`
          -- from the very ORM object whose field was cleared at line 1081,
          -- so `offer_sender_id` is always None here
          let offer_sender_id := conversation'.pending_offer_from_user_id
          let db2 :=
            match offer_sender_id with
            | some sid =>
              match db1.users.find? (fun u => u.id == sid) with
              | some _offer_sender =>
                (create_notification db1 sid NotificationType.system
                  "Offer Rejected"
                  (current_user.full_name ++ " rejected your offer for " ++ item.title)
                  (some item.id) (some current_user.id) (some conversation_id)).1
              | none => db1
            | none => db1
          let updEvents := broadcast_conversation_update db2 conns conversation'
          .ok (db2, updEvents, .rejected)
        else if action == "counter" then
          if !truthyR counter_price ||
              decide (counter_price.getD 0 ≤ 0) then
            .error ⟨400, "Invalid counter offer price"⟩
          else
            let cp := counter_price.getD 0
            let other_user_id := if conversation.user1_id == current_user.id then
              conversation.user2_id else conversation.user1_id
            let conversation' := setPendingOffer (py_int (cp * 100))
              current_user.id now conversation
            let counter_message : Message :=
              { id := db.next_id
                conversation_id := conversation_id
                sender_id := current_user.id
                content := "💵 Counter offer: $" ++ fmt2 cp
                is_read := false
                read_at := none
                created_at := now }
            let db1 : DB :=
              { db with
                messages := db.messages ++ [counter_message]
                conversations := replaceFirstWhere (fun c => c.id == conversation_id)
                  (setPendingOffer (py_int (cp * 100)) current_user.id now)
                  db.conversations
                next_id := db.next_id + 1 }
            let db2 :=
              match db1.users.find? (fun u => u.id == other_user_id) with
              | some _other_user =>
                (create_notification db1 other_user_id NotificationType.system
                  "Counter Offer"
                  (current_user.full_name ++ " countered with $" ++ fmt2 cp ++
                    " for " ++ item.title)
                  (some item.id) (some current_user.id) (some conversation_id)).1
              | none => db1
            let offerEvents := if conns.contains other_user_id then
              [Event.purchase_offer other_user_id conversation_id item.id cp
                item.price (item.seller_id == current_user.id)] else []
            let updEvents := broadcast_conversation_update db2 conns conversation'
            .ok (db2, offerEvents ++ updEvents, .countered cp)
        else
          -- source text: "Invalid action. Must be 'accept', 'reject', or
          -- 'counter'" (quotes dropped here)
          .error ⟨400, "Invalid action. Must be accept, reject, or counter"⟩

/-- Endpoint POST /conversations/:id/report — `report_conversation` (chat.py lines
759–789). -/
def report_conversation (db : DB) (current_user_id : Nat)
    (conversation_id : Nat) (reason : String) (now : Nat) :
    Except HttpError DB :=
  match db.conversations.find? (fun c => c.id == conversation_id) with
  | none => .error ⟨404, "Conversation not found"⟩
  | some conversation =>
    if conversation.user1_id != current_user_id &&
        conversation.user2_id != current_user_id then
      .error ⟨403, "Not authorized to report this conversation"⟩
    else
      let convs' := replaceFirstWhere (fun c => c.id == conversation_id)
        (fun c => { c with
          is_reported := true
          reported_at := some now
          reported_by := some current_user_id
          report_reason := some reason }) db.conversations
      .ok { db with conversations := convs' }

/-- Endpoint PUT /conversations/:id/continue — `continue_conversation` (chat.py
lines 1403–1430): clears only `is_ended`/`ended_at`; `is_sold` stays. -/
def continue_conversation (db : DB) (current_user_id : Nat)
    (conversation_id : Nat) : Except HttpError DB :=
  match db.conversations.find? (fun c => c.id == conversation_id) with
  | none => .error ⟨404, "Conversation not found"⟩
  | some conversation =>
    if conversation.user1_id != current_user_id &&
        conversation.user2_id != current_user_id then
      .error ⟨403, "Not authorized to continue this conversation"⟩
    else
      let convs' := replaceFirstWhere (fun c => c.id == conversation_id)
        (fun c => { c with is_ended := false, ended_at := none })
        db.conversations
      .ok { db with conversations := convs' }

/-- Remove the first element satisfying `p` (the ORM deletes the single
object it resolved). -/
def eraseFirstWhere (p : α → Bool) : List α → List α
  | [] => []
  | x :: xs => if p x then xs else x :: eraseFirstWhere p xs

/-- Endpoint DELETE /conversations/:id — `delete_conversation` (chat.py lines
706–756): nulls the conversation reference out of notifications and
transactions, then deletes the row; messages cascade. -/
def delete_conversation (db : DB) (current_user_id : Nat)
    (conversation_id : Nat) : Except HttpError DB :=
  match db.conversations.find? (fun c => c.id == conversation_id) with
  | none => .error ⟨404, "Conversation not found"⟩
  | some conversation =>
    if conversation.user1_id != current_user_id &&
        conversation.user2_id != current_user_id then
      .error ⟨403, "Not authorized to delete this conversation"⟩
    else
      .ok { db with
        notifications := db.notifications.map (fun n =>
          if n.related_conversation_id == some conversation_id then
            { n with related_conversation_id := none } else n)
        transactions := db.transactions.map (fun t =>
          if t.conversation_id == some conversation_id then
            { t with conversation_id := none } else t)
        conversations := eraseFirstWhere (fun c => c.id == conversation_id)
          db.conversations
        messages := db.messages.filter
          (fun m => m.conversation_id != conversation_id) }

/-- Request body `RatingCreate` of `schemas/transaction.py`; its redundant
`transaction_id` field is ignored by the handler, which uses the path
parameter. -/
structure RatingCreate where
  rated_user_id : Nat
  rating : Int
  comment : Option String
deriving Repr, DecidableEq

/-- Endpoint POST /transactions/:id/rate — `rate_user` (chat.py lines 1233–1307):
a second submission by the same rater updates the existing row in place. -/
def rate_user (db : DB) (current_user : User) (transaction_id : Nat)
    (rating_data : RatingCreate) : Except HttpError (DB × RatingRow) :=
  match db.transactions.find? (fun t => t.id == some transaction_id) with
  | none => .error ⟨404, "Transaction not found"⟩
  | some transaction =>
    if transaction.seller_id != current_user.id &&
        transaction.buyer_id != current_user.id then
      .error ⟨403, "Not authorized to rate for this transaction"⟩
    else
      let other_user_id := if transaction.seller_id == current_user.id then
        transaction.buyer_id else transaction.seller_id
      if rating_data.rated_user_id != other_user_id then
        .error ⟨400, "Can only rate the other party in the transaction"⟩
      else
        match db.ratings.find? (fun r =>
          r.transaction_id == transaction_id && r.rater_id == current_user.id) with
        | some existing_rating =>
          let updated := { existing_rating with
            rating := rating_data.rating
            comment := rating_data.comment }
          let ratings' := replaceFirstWhere (fun r =>
            r.transaction_id == transaction_id && r.rater_id == current_user.id)
            (fun r => { r with
              rating := rating_data.rating
              comment := rating_data.comment }) db.ratings
          .ok ({ db with ratings := ratings' }, updated)
        | none =>
          let rating : RatingRow :=
            { id := db.next_id
              transaction_id := transaction_id
              rater_id := current_user.id
              rated_user_id := rating_data.rated_user_id
              rating := rating_data.rating
              comment := rating_data.comment }
          .ok ({ db with
            ratings := db.ratings ++ [rating]
            next_id := db.next_id + 1 }, rating)

/-- Response of `get_user_rating_summary`. -/
structure RatingSummary where
  average_rating : Option Rat
  rating_count : Nat
  viewer_rating : Option Int
deriving Repr, DecidableEq

/-- Endpoint GET /users/:id/rating-summary — `get_user_rating_summary` (chat.py
lines 1339–1363): average over all ratings received, rounded to two
decimals, `None` when there are none; plus the viewer's own rating. -/
def get_user_rating_summary (db : DB) (current_user_id : Nat)
    (user_id : Nat) : RatingSummary :=
  let ratings := db.ratings.filter (fun r => r.rated_user_id == user_id)
  if ratings.isEmpty then
    { average_rating := none, rating_count := 0, viewer_rating := none }
  else
    let total : Int := (ratings.map RatingRow.rating).sum
    let count := ratings.length
    let average := round2 ((total : Rat) / (count : Rat))
    let viewer_rating := (ratings.find?
      (fun r => r.rater_id == current_user_id)).map RatingRow.rating
    { average_rating := some average
      rating_count := count
      viewer_rating := viewer_rating }

/-! ## Reachable states of the negotiation state machine

`Step` collects the request handlers that can alter the `conversations`
table.  `archive_conversation` / `unarchive_conversation` touch only audit
columns (the per-user status columns are commented out in `models/chat.py`),
and `get_messages` / `rate_user` / the notification routes leave the
`conversations` table unchanged; all of those are covered by the `frame`
constructor. -/
inductive Step : DB → DB → Prop where
  | create_conv {db : DB} {conns : List Nat} {uid : Nat}
      {data : ConversationCreate} {db' : DB} {ev : List Event}
      {r : ConversationResponse}
      (h : create_conversation db conns uid data = .ok (db', ev, r)) :
      Step db db'
  | message {db : DB} {conns : List Nat} {u : User} {cid : Nat}
      {content : String} {now : Nat} {db' : DB} {ev : List Event} {m : Message}
      (h : create_message db conns u cid content now = .ok (db', ev, m)) :
      Step db db'
  | offer {db : DB} {conns : List Nat} {u : User} {cid : Nat} {price : Rat}
      {now : Nat} {db' : DB} {ev : List Event} {r : Rat}
      (h : send_purchase_offer db conns u cid price now = .ok (db', ev, r)) :
      Step db db'
  | respond {db : DB} {conns : List Nat} {u : User} {cid : Nat}
      {action : String} {cp : Option Rat} {now : Nat} {db' : DB}
      {ev : List Event} {r : RespondResult}
      (h : respond_to_offer db conns u cid action cp now = .ok (db', ev, r)) :
      Step db db'
  | report {db : DB} {uid cid : Nat} {reason : String} {now : Nat} {db' : DB}
      (h : report_conversation db uid cid reason now = .ok db') : Step db db'
  | continue_conv {db : DB} {uid cid : Nat} {db' : DB}
      (h : continue_conversation db uid cid = .ok db') : Step db db'
  | delete_conv {db : DB} {uid cid : Nat} {db' : DB}
      (h : delete_conversation db uid cid = .ok db') : Step db db'
  | frame {db db' : DB} (h : db'.conversations = db.conversations) :
      Step db db'

/-- A database state reachable from a state with no conversations by the
chat-route handlers. -/
inductive Reachable : DB → Prop where
  | init (db : DB) : db.conversations = [] → Reachable db
  | step {db db' : DB} : Reachable db → Step db db' → Reachable db'

/-! ## A concrete scenario (spec §8)

Users 1 (Alice, seller of item 10) and 2 (Bob); Bob opens a conversation
about item 10, offers $50, and the offer is accepted. -/

/-- Scenario user 1: the seller. -/
def aliceU : User := ⟨1, "alice", "Alice A"⟩

/-- Scenario user 2: the buyer. -/
def bobU : User := ⟨2, "bob", "Bob B"⟩

/-- Scenario item 10, owned by user 1, listed at $60. -/
def bikeItem : Item := ⟨10, 1, "Bike", 60, "ACTIVE"⟩

/-- Initial store: two users, one item, no conversations. -/
def sDB0 : DB := ⟨[aliceU, bobU], [bikeItem], [], [], [], [], [], 100⟩

/-- After Bob opens the conversation about item 10. -/
def sDB1 : DB :=
  match create_conversation sDB0 [] 2 ⟨1, some 10⟩ with
  | .ok (d, _, _) => d
  | .error _ => sDB0

/-- After Bob sends a $50 offer at time 5. -/
def sDB2 : DB :=
  match send_purchase_offer sDB1 [] bobU 100 50 5 with
  | .ok (d, _, _) => d
  | .error _ => sDB1

/-- After Alice accepts at time 6. -/
def sDB3 : DB :=
  match respond_to_offer sDB2 [] aliceU 100 "accept" none 6 with
  | .ok (d, _, _) => d
  | .error _ => sDB2

/-- The conversation row in `sDB1`. -/
def sConv1 : Conversation :=
  ⟨100, 2, 1, some 10, none, false, none, none, none, none, none, false,
    none, false, none, none, none⟩

/-- The conversation row in `sDB2`: pending offer of 5000 cents from user 2
at time 5. -/
def sConv2 : Conversation :=
  { sConv1 with
    last_message_at := some 5
    pending_offer_price := some 5000
    pending_offer_from_user_id := some 2
    pending_offer_at := some 5 }

/-- The conversation row in `sDB3`: sold and ended, pending offer cleared,
`transaction_id` still null. -/
def sConv3 : Conversation :=
  { sConv1 with
    last_message_at := some 6
    is_sold := true
    sold_at := some 6
    is_ended := true
    ended_at := some 6 }

/-- The transaction created by the accept in the scenario. -/
def sTxn : TransactionRow :=
  ⟨some 103, 10, 1, 2, some 100, 50, some 60, true, some 6⟩

/-- Per-conversation invariant: a sold conversation holds no pending
offer. -/
def InvC (c : Conversation) : Prop :=
  c.is_sold = true → c.pending_offer_price = none ∧
    c.pending_offer_from_user_id = none ∧ c.pending_offer_at = none

/-- Database invariant: every conversation satisfies `InvC`. -/
def Inv (db : DB) : Prop := ∀ c ∈ db.conversations, InvC c

end Marketplace

namespace Marketplace

theorem forall_mem_replaceFirstWhere {α : Type} {P : α → Prop}
    (p : α → Bool) (f : α → α) (l : List α)
    (h : ∀ x ∈ l, P x) (hf : ∀ c, l.find? p = some c → P (f c)) :
    ∀ x ∈ replaceFirstWhere p f l, P x := by
  induction l with
  | nil => simp [replaceFirstWhere]
  | cons a as ih =>
    by_cases hp : p a
    · have hfa : P (f a) := hf a (by simp [List.find?_cons_of_pos, hp])
      simp only [replaceFirstWhere, if_pos hp]
      intro x hx
      rcases List.mem_cons.mp hx with rfl | hx
      · exact hfa
      · exact h x (List.mem_cons_of_mem _ hx)
    · simp only [replaceFirstWhere, if_neg hp]
      intro x hx
      rcases List.mem_cons.mp hx with rfl | hx
      · exact h x (List.mem_cons_self _ _)
      · exact ih (fun y hy => h y (List.mem_cons_of_mem _ hy))
          (fun c hc => hf c (by simpa [List.find?_cons_of_neg, hp] using hc))
          x hx

theorem forall_mem_eraseFirstWhere {α : Type} {P : α → Prop}
    (p : α → Bool) (l : List α) (h : ∀ x ∈ l, P x) :
    ∀ x ∈ eraseFirstWhere p l, P x := by
  induction l with
  | nil => simp [eraseFirstWhere]
  | cons a as ih =>
    by_cases hp : p a
    · simp only [eraseFirstWhere, if_pos hp]
      exact fun x hx => h x (List.mem_cons_of_mem _ hx)
    · simp only [eraseFirstWhere, if_neg hp]
      intro x hx
      rcases List.mem_cons.mp hx with rfl | hx
      · exact h x (List.mem_cons_self _ _)
      · exact ih (fun y hy => h y (List.mem_cons_of_mem _ hy)) x hx

theorem length_replaceFirstWhere {α : Type} (p : α → Bool) (f : α → α)
    (l : List α) : (replaceFirstWhere p f l).length = l.length := by
  induction l with
  | nil => rfl
  | cons a as ih =>
    by_cases hp : p a <;> simp [replaceFirstWhere, hp, ih]

theorem find?_replaceFirstWhere_self {α : Type} (p : α → Bool) (f : α → α)
    (l : List α) (c : α) (hfind : l.find? p = some c)
    (hp : p (f c) = true) :
    (replaceFirstWhere p f l).find? p = some (f c) := by
  induction l with
  | nil => simp at hfind
  | cons a as ih =>
    by_cases hpa : p a
    · rw [List.find?_cons_of_pos _ hpa] at hfind
      injection hfind with hfind
      subst hfind
      simp [replaceFirstWhere, if_pos hpa, List.find?_cons_of_pos _ hp]
    · rw [List.find?_cons_of_neg _ hpa] at hfind
      simp [replaceFirstWhere, if_neg hpa, List.find?_cons_of_neg _ hpa,
        ih hfind]

theorem find?_congr {α : Type} (p q : α → Bool) (h : ∀ x, p x = q x)
    (l : List α) : l.find? p = l.find? q := by
  induction l with
  | nil => rfl
  | cons a as ih =>
    by_cases hp : p a
    · rw [List.find?_cons_of_pos _ hp, List.find?_cons_of_pos _ (h a ▸ hp)]
    · rw [List.find?_cons_of_neg _ hp,
        List.find?_cons_of_neg _ (by rw [← h a]; exact hp), ih]

theorem find?_append_right {α : Type} (p : α → Bool) (l : List α) (c : α)
    (hl : l.find? p = none) (hc : p c = true) :
    (l ++ [c]).find? p = some c := by
  induction l with
  | nil => simp [List.find?_cons_of_pos _ hc]
  | cons a as ih =>
    by_cases hpa : p a
    · rw [List.find?_cons_of_pos _ hpa] at hl
      exact (Option.some_ne_none a hl).elim
    · rw [List.find?_cons_of_neg _ hpa] at hl
      rw [List.cons_append, List.find?_cons_of_neg _ hpa]
      exact ih hl

theorem inv_of_conversations_eq {db db' : DB}
    (h : db'.conversations = db.conversations) (hI : Inv db) : Inv db' := by
  intro c hc
  exact hI c (h ▸ hc)

theorem invC_congr {c c' : Conversation} (hI : InvC c)
    (hsold : c'.is_sold = c.is_sold)
    (hp : c'.pending_offer_price = c.pending_offer_price)
    (hfrom : c'.pending_offer_from_user_id = c.pending_offer_from_user_id)
    (hat : c'.pending_offer_at = c.pending_offer_at) : InvC c' := by
  intro hs
  rw [hsold] at hs
  rw [hp, hfrom, hat]
  exact hI hs

theorem invC_applyAccept (t : Option Nat) (now : Nat) (c : Conversation) :
    InvC (applyAccept t now c) := by
  intro _
  exact ⟨rfl, rfl, rfl⟩

theorem invC_applyReject (now : Nat) (c : Conversation) :
    InvC (applyReject now c) := by
  intro _
  exact ⟨rfl, rfl, rfl⟩

theorem is_sold_setPendingOffer (p : Int) (u now : Nat) (c : Conversation) :
    (setPendingOffer p u now c).is_sold = c.is_sold := rfl

theorem invC_setPendingOffer (p : Int) (u now : Nat) (c : Conversation)
    (h : c.is_sold = false) : InvC (setPendingOffer p u now c) := by
  intro hs
  rw [is_sold_setPendingOffer, h] at hs
  exact absurd hs (by simp)

theorem is_sold_reassignItem (iid : Option Nat) (c : Conversation) :
    (reassignItem iid c).is_sold = false := by
  unfold reassignItem
  by_cases he : ({ c with item_id := iid } : Conversation).is_ended <;>
    by_cases hs : c.is_sold <;>
    simp_all

theorem invC_reassignItem (iid : Option Nat) (c : Conversation) :
    InvC (reassignItem iid c) := by
  intro hs
  rw [is_sold_reassignItem] at hs
  exact absurd hs (by simp)

theorem inv_report_conversation (db : DB) (uid cid : Nat) (reason : String)
    (now : Nat) (db' : DB)
    (h : report_conversation db uid cid reason now = .ok db') (hI : Inv db) :
    Inv db' := by
  unfold report_conversation at h
  split at h
  · exact absurd h (by simp)
  · split at h
    · exact absurd h (by simp)
    · injection h with h
      subst h
      intro c hc
      refine forall_mem_replaceFirstWhere _ _ _ hI (fun c0 hc0 => ?_) c hc
      exact invC_congr (hI c0 (List.mem_of_find?_eq_some hc0)) rfl rfl rfl rfl

theorem inv_continue_conversation (db : DB) (uid cid : Nat) (db' : DB)
    (h : continue_conversation db uid cid = .ok db') (hI : Inv db) :
    Inv db' := by
  unfold continue_conversation at h
  split at h
  · exact absurd h (by simp)
  · split at h
    · exact absurd h (by simp)
    · injection h with h
      subst h
      intro c hc
      refine forall_mem_replaceFirstWhere _ _ _ hI (fun c0 hc0 => ?_) c hc
      exact invC_congr (hI c0 (List.mem_of_find?_eq_some hc0)) rfl rfl rfl rfl

theorem inv_delete_conversation (db : DB) (uid cid : Nat) (db' : DB)
    (h : delete_conversation db uid cid = .ok db') (hI : Inv db) :
    Inv db' := by
  unfold delete_conversation at h
  split at h
  · exact absurd h (by simp)
  · split at h
    · exact absurd h (by simp)
    · injection h with h
      subst h
      intro c hc
      exact forall_mem_eraseFirstWhere _ _ hI c hc

theorem create_notification_conversations (db : DB) (u : Nat)
    (ty : NotificationType) (t m : String) (a b c : Option Nat) :
    ((create_notification db u ty t m a b c).1).conversations =
      db.conversations := rfl

theorem inv_create_conversation (db : DB) (conns : List Nat) (uid : Nat)
    (data : ConversationCreate) (db' : DB) (ev : List Event)
    (r : ConversationResponse)
    (h : create_conversation db conns uid data = .ok (db', ev, r))
    (hI : Inv db) : Inv db' := by
  unfold create_conversation at h
  simp only [] at h
  split at h
  · exact absurd h (by simp)
  · split at h
    · exact absurd h (by simp)
    · split at h
      · split at h
        · simp only [Except.ok.injEq, Prod.mk.injEq] at h
          obtain ⟨h1, -, -⟩ := h
          subst h1
          intro c hc
          refine forall_mem_replaceFirstWhere _ _ _ hI (fun c0 _ => ?_) c hc
          exact invC_reassignItem _ c0
        · simp only [Except.ok.injEq, Prod.mk.injEq] at h
          obtain ⟨h1, -, -⟩ := h
          subst h1
          exact hI
      · simp only [Except.ok.injEq, Prod.mk.injEq] at h
        obtain ⟨h1, -, -⟩ := h
        subst h1
        intro c hc
        rcases List.mem_append.mp hc with hc | hc
        · exact hI c hc
        · rw [List.mem_singleton.mp hc]
          intro hs
          exact absurd hs (by simp)

theorem inv_create_message (db : DB) (conns : List Nat) (u : User) (cid : Nat)
    (content : String) (now : Nat) (db' : DB) (ev : List Event) (m : Message)
    (h : create_message db conns u cid content now = .ok (db', ev, m))
    (hI : Inv db) : Inv db' := by
  unfold create_message at h
  simp only [] at h
  split at h
  · exact absurd h (by simp)
  · split at h
    · exact absurd h (by simp)
    · split at h
      · simp only [Except.ok.injEq, Prod.mk.injEq] at h
        obtain ⟨h1, -, -⟩ := h
        subst h1
        intro c hc
        rw [create_notification_conversations] at hc
        refine forall_mem_replaceFirstWhere _ _ _ hI (fun c0 hc0 => ?_) c hc
        exact invC_congr (hI c0 (List.mem_of_find?_eq_some hc0)) rfl rfl rfl rfl
      · simp only [Except.ok.injEq, Prod.mk.injEq] at h
        obtain ⟨h1, -, -⟩ := h
        subst h1
        intro c hc
        refine forall_mem_replaceFirstWhere _ _ _ hI (fun c0 hc0 => ?_) c hc
        exact invC_congr (hI c0 (List.mem_of_find?_eq_some hc0)) rfl rfl rfl rfl

theorem inv_send_purchase_offer (db : DB) (conns : List Nat) (u : User)
    (cid : Nat) (price : Rat) (now : Nat) (db' : DB) (ev : List Event) (r : Rat)
    (h : send_purchase_offer db conns u cid price now = .ok (db', ev, r))
    (hI : Inv db) : Inv db' := by
  unfold send_purchase_offer at h
  simp only [] at h
  split at h
  · exact absurd h (by simp)
  rename_i conversation heq
  split at h
  · exact absurd h (by simp)
  split at h
  · exact absurd h (by simp)
  split at h
  · exact absurd h (by simp)
  rename_i item hitem
  split at h
  · exact absurd h (by simp)
  rename_i hsold
  have hsold' : conversation.is_sold = false := by
    cases hs : conversation.is_sold
    · rfl
    · exact absurd hs hsold
  split at h <;>
  · simp only [Except.ok.injEq, Prod.mk.injEq] at h
    obtain ⟨h1, -, -⟩ := h
    subst h1
    intro c hc
    first
    | rw [create_notification_conversations] at hc
    | skip
    refine forall_mem_replaceFirstWhere _ _ _ hI (fun c0 hc0 => ?_) c hc
    rw [heq] at hc0
    injection hc0 with hc0
    subst hc0
    exact invC_setPendingOffer _ _ _ _ hsold'

theorem inv_respond_to_offer (db : DB) (conns : List Nat) (u : User)
    (cid : Nat) (action : String) (cp : Option Rat) (now : Nat) (db' : DB)
    (ev : List Event) (r : RespondResult)
    (h : respond_to_offer db conns u cid action cp now = .ok (db', ev, r))
    (hI : Inv db) : Inv db' := by
  unfold respond_to_offer at h
  simp only [] at h
  split at h
  · exact absurd h (by simp)
  rename_i conversation heq
  split at h
  · exact absurd h (by simp)
  split at h
  · exact absurd h (by simp)
  rename_i hpend
  split at h
  · exact absurd h (by simp)
  rename_i item hitem
  have hmem := List.mem_of_find?_eq_some heq
  have hsold' : conversation.is_sold = false := by
    cases hs : conversation.is_sold
    · rfl
    · rcases hI conversation hmem hs with ⟨hp, -, -⟩
      rw [hp] at hpend
      simp [truthyI] at hpend
  split at h
  · split at h <;>
    · simp only [Except.ok.injEq, Prod.mk.injEq] at h
      obtain ⟨h1, -, -⟩ := h
      subst h1
      intro c hc
      first
      | rw [create_notification_conversations] at hc
      | skip
      refine forall_mem_replaceFirstWhere _ _ _ hI (fun c0 _ => ?_) c hc
      exact invC_applyAccept _ _ c0
  · split at h
    · repeat' split at h
      all_goals
        simp only [Except.ok.injEq, Prod.mk.injEq] at h
      all_goals
        obtain ⟨h1, -, -⟩ := h
        subst h1
        intro c hc
        first
        | rw [create_notification_conversations] at hc
        | skip
        refine forall_mem_replaceFirstWhere _ _ _ hI (fun c0 _ => ?_) c hc
        exact invC_applyReject _ c0
    · split at h
      · split at h
        · exact absurd h (by simp)
        split at h <;>
        · simp only [Except.ok.injEq, Prod.mk.injEq] at h
          obtain ⟨h1, -, -⟩ := h
          subst h1
          intro c hc
          first
          | rw [create_notification_conversations] at hc
          | skip
          refine forall_mem_replaceFirstWhere _ _ _ hI (fun c0 hc0 => ?_) c hc
          rw [heq] at hc0
          injection hc0 with hc0
          subst hc0
          exact invC_setPendingOffer _ _ _ _ hsold'
      · exact absurd h (by simp)

theorem inv_step {db db' : DB} (s : Step db db') (hI : Inv db) : Inv db' := by
  cases s with
  | create_conv h => exact inv_create_conversation _ _ _ _ _ _ _ h hI
  | message h => exact inv_create_message _ _ _ _ _ _ _ _ _ h hI
  | offer h => exact inv_send_purchase_offer _ _ _ _ _ _ _ _ _ h hI
  | respond h => exact inv_respond_to_offer _ _ _ _ _ _ _ _ _ _ h hI
  | report h => exact inv_report_conversation _ _ _ _ _ _ h hI
  | continue_conv h => exact inv_continue_conversation _ _ _ _ h hI
  | delete_conv h => exact inv_delete_conversation _ _ _ _ h hI
  | frame h => exact inv_of_conversations_eq h hI

theorem inv_reachable {db : DB} (h : Reachable db) : Inv db := by
  induction h with
  | init db h0 =>
    intro c hc
    rw [h0] at hc
    exact absurd hc (List.not_mem_nil c)
  | step _ s ih =>
    exact inv_step s ih

/-- State `sDB1` is reached by Bob opening the conversation. -/
theorem sDB1_reachable : Reachable sDB1 :=
  .step (.init sDB0 rfl) (@Step.create_conv sDB0 [] 2 ⟨1, some 10⟩ sDB1 _ _ rfl)

/-- State `sDB2` is reached by Bob then offering $50. -/
theorem sDB2_reachable : Reachable sDB2 :=
  .step sDB1_reachable (@Step.offer sDB1 [] bobU 100 50 5 sDB2 _ _ rfl)

/-- State `sDB3` is reached by Alice then accepting. -/
theorem sDB3_reachable : Reachable sDB3 :=
  .step sDB2_reachable (@Step.respond sDB2 [] aliceU 100 "accept" none 6 sDB3 _ _ rfl)

/-- Any `conversation_updated` event pushed by
`broadcast_conversation_update` carries the single payload built from the
conversation row. -/
theorem eq_payload_of_mem_broadcast {db : DB} {conns : List Nat}
    {conversation : Conversation} {u : Nat} {p : ConvUpdatePayload}
    (h : Event.conversation_updated u p ∈
      broadcast_conversation_update db conns conversation) :
    p = convUpdatePayload db conversation := by
  unfold broadcast_conversation_update at h
  rcases List.mem_map.mp h with ⟨u0, -, he⟩
  injection he with h1 h2
  exact h2.symm

/-- The participant check of `respond_to_offer` (chat.py line 939) passes for
either participant. -/
theorem participant_check_false {conv : Conversation} {uid : Nat}
    (hpart : uid = conv.user1_id ∨ uid = conv.user2_id) :
    (conv.user1_id != uid && conv.user2_id != uid) = false := by
  rcases hpart with h | h <;> simp [← h]

/-- C7: responding `reject` (or `counter`) on a conversation with no
pending offer is refused with the 400 client error
"No pending offer to respond to" — the conflict class of spec §7 — rather
than crashing; the exception is raised before any commit (the `Except.error`
result carries no database state, so nothing is changed). -/
theorem respond_without_pending_is_conflict
    (db : DB) (conns : List Nat) (u : User) (cid : Nat) (cp : Option Rat)
    (now : Nat) (conv : Conversation)
    (hfind : db.conversations.find? (fun c => c.id == cid) = some conv)
    (hpart : u.id = conv.user1_id ∨ u.id = conv.user2_id)
    (hprice : conv.pending_offer_price = none)
    (_hfrom : conv.pending_offer_from_user_id = none) :
    respond_to_offer db conns u cid "reject" none now =
      .error ⟨400, "No pending offer to respond to"⟩ ∧
    respond_to_offer db conns u cid "counter" cp now =
      .error ⟨400, "No pending offer to respond to"⟩ := by
  constructor <;>
  · unfold respond_to_offer
    rw [hfind]
    simp only []
    rw [participant_check_false hpart]
    simp [hprice, truthyI]

/-- Witness for `respond_without_pending_is_conflict` at the concrete
scenario state `sDB1` (fresh conversation, no pending offer). -/
theorem respond_without_pending_is_conflict_witness :
    respond_to_offer sDB1 [] aliceU 100 "reject" none 7 =
      .error ⟨400, "No pending offer to respond to"⟩ ∧
    respond_to_offer sDB1 [] aliceU 100 "counter" (some 45) 7 =
      .error ⟨400, "No pending offer to respond to"⟩ :=
  respond_without_pending_is_conflict sDB1 [] aliceU 100 (some 45) 7 sConv1
    (by decide) (by decide) (by decide) (by decide)

/-- C2: in every reachable state, accepting on a conversation already
flagged sold is refused with the 400 conflict "No pending offer to respond
to" (spec §7 classes that detail as a conflict): a sold conversation can
hold no pending offer (`inv_reachable`), so the pending-offer check fires.
The `Except.error` result carries no database state, so no Transaction is
created. -/
theorem accept_on_sold_conversation_is_conflict
    (db : DB) (conns : List Nat) (u : User) (cid : Nat) (cp : Option Rat)
    (now : Nat) (conv : Conversation)
    (hreach : Reachable db)
    (hfind : db.conversations.find? (fun c => c.id == cid) = some conv)
    (hsold : conv.is_sold = true)
    (hpart : u.id = conv.user1_id ∨ u.id = conv.user2_id) :
    respond_to_offer db conns u cid "accept" cp now =
      .error ⟨400, "No pending offer to respond to"⟩ := by
  rcases inv_reachable hreach conv (List.mem_of_find?_eq_some hfind) hsold
    with ⟨hprice, hfrom, -⟩
  unfold respond_to_offer
  rw [hfind]
  simp only []
  rw [participant_check_false hpart]
  simp [hprice, truthyI]

/-- Witness for `accept_on_sold_conversation_is_conflict` at the reachable
sold state `sDB3`. -/
theorem accept_on_sold_conversation_is_conflict_witness :
    sConv3.is_sold = true ∧
    respond_to_offer sDB3 [] bobU 100 "accept" none 7 =
      .error ⟨400, "No pending offer to respond to"⟩ :=
  ⟨by decide,
    accept_on_sold_conversation_is_conflict sDB3 [] bobU 100 none 7 sConv3
      sDB3_reachable (by decide) (by decide) (by decide)⟩

/-- Full characterisation of a successful accept (chat.py lines 966–1076):
given a pending offer, a participating caller and a resolvable item, the
handler succeeds; the one commit (line 1007) appends exactly one
`Transaction` at the pending price with the item owner as seller, marks the
item `SOLD`, and replaces the conversation by `applyAccept` (sold + ended +
pending cleared, `transaction_id` still the pre-flush `none`); afterwards an
`item_sold` event goes to each connected party and the conversation-update
broadcast follows. -/
theorem respond_accept_spec
    (db : DB) (conns : List Nat) (u : User) (cid : Nat) (cp : Option Rat)
    (now : Nat) (conv : Conversation) (item : Item)
    (hfind : db.conversations.find? (fun c => c.id == cid) = some conv)
    (hpart : u.id = conv.user1_id ∨ u.id = conv.user2_id)
    (hprice : truthyI conv.pending_offer_price = true)
    (hfrom : truthyN conv.pending_offer_from_user_id = true)
    (hitem : db.items.find? (fun it => some it.id == conv.item_id) = some item) :
    ∃ db' ev t,
      respond_to_offer db conns u cid "accept" cp now =
        .ok (db', ev, .accepted t) ∧
      t = ⟨some db.next_id, conv.item_id.getD 0, item.seller_id,
        (if conv.user1_id == item.seller_id then conv.user2_id
          else conv.user1_id), some cid,
        (conv.pending_offer_price.getD 0 : Rat) / 100, some item.price,
        true, some now⟩ ∧
      db'.transactions = db.transactions ++ [t] ∧
      db'.items.find? (fun it => some it.id == conv.item_id) =
        some { item with status := "SOLD" } ∧
      db'.conversations.find? (fun c => c.id == cid) =
        some (applyAccept none now conv) ∧
      ev = (([item.seller_id,
          if conv.user1_id == item.seller_id then conv.user2_id
            else conv.user1_id].filter (fun x => conns.contains x)).map
          (fun x => Event.item_sold x (some db.next_id) cid item.id
            ((conv.pending_offer_price.getD 0 : Rat) / 100))) ++
        broadcast_conversation_update db' conns (applyAccept none now conv) := by
  unfold respond_to_offer
  rw [hfind]
  simp only []
  rw [participant_check_false hpart]
  rw [if_neg (by simp)]
  rw [if_neg (by simp [hprice, hfrom])]
  rw [hitem]
  simp only []
  have hacc : ("accept" == "accept") = true := rfl
  rw [if_pos hacc]
  refine ⟨_, _, _, rfl, rfl, ?_, ?_, ?_, rfl⟩
  · split <;> rfl
  · have hpi := @List.find?_some Item
      (fun it => some it.id == conv.item_id) item db.items hitem
    split <;> exact find?_replaceFirstWhere_self _ _ _ _ hitem hpi
  · have hpc := @List.find?_some Conversation
      (fun c => c.id == cid) conv db.conversations hfind
    split <;> exact find?_replaceFirstWhere_self _ _ _ _ hfind hpc

/-- C1: with a pending offer, a participating caller and a resolvable
item, accepting succeeds and — in the single commit at chat.py line 1007 —
creates exactly one Transaction whose sale price is the pending cents
divided by 100, whose seller is the item owner and whose buyer is the other
participant (regardless of who proposed), marks the item `SOLD`, sets the
conversation `is_sold` and `is_ended`, and clears the three pending-offer
fields. -/
theorem accept_creates_one_transaction_and_closes
    (db : DB) (conns : List Nat) (u : User) (cid : Nat) (cp : Option Rat)
    (now : Nat) (conv : Conversation) (item : Item)
    (hfind : db.conversations.find? (fun c => c.id == cid) = some conv)
    (hpart : u.id = conv.user1_id ∨ u.id = conv.user2_id)
    (hprice : truthyI conv.pending_offer_price = true)
    (hfrom : truthyN conv.pending_offer_from_user_id = true)
    (hitem : db.items.find? (fun it => some it.id == conv.item_id) = some item) :
    ∃ db' ev t,
      respond_to_offer db conns u cid "accept" cp now =
        .ok (db', ev, .accepted t) ∧
      db'.transactions = db.transactions ++ [t] ∧
      t.sale_price = (conv.pending_offer_price.getD 0 : Rat) / 100 ∧
      t.seller_id = item.seller_id ∧
      t.buyer_id = (if conv.user1_id == item.seller_id then conv.user2_id
        else conv.user1_id) ∧
      db'.items.find? (fun it => some it.id == conv.item_id) =
        some { item with status := "SOLD" } ∧
      ∃ conv', db'.conversations.find? (fun c => c.id == cid) = some conv' ∧
        conv'.is_sold = true ∧ conv'.is_ended = true ∧
        conv'.pending_offer_price = none ∧
        conv'.pending_offer_from_user_id = none ∧
        conv'.pending_offer_at = none := by
  obtain ⟨db', ev, t, hrun, ht, htr, hit, hcv, -⟩ :=
    respond_accept_spec db conns u cid cp now conv item hfind hpart hprice
      hfrom hitem
  subst ht
  exact ⟨db', ev, _, hrun, htr, rfl, rfl, rfl, hit,
    ⟨_, hcv, rfl, rfl, rfl, rfl, rfl⟩⟩

/-- Witness for `accept_creates_one_transaction_and_closes` at the concrete
pending-offer state `sDB2` (Bob pending at 5000 cents; Alice accepts). -/
theorem accept_creates_one_transaction_and_closes_witness :
    truthyI sConv2.pending_offer_price = true ∧
    (∃ db' ev t,
      respond_to_offer sDB2 [] aliceU 100 "accept" none 6 =
        .ok (db', ev, .accepted t) ∧
      db'.transactions = sDB2.transactions ++ [t] ∧
      t.sale_price = (sConv2.pending_offer_price.getD 0 : Rat) / 100 ∧
      t.seller_id = bikeItem.seller_id ∧
      t.buyer_id = (if sConv2.user1_id == bikeItem.seller_id then
        sConv2.user2_id else sConv2.user1_id) ∧
      sDB2.items.find? (fun it => some it.id == sConv2.item_id) ≠ none ∧
      ∃ conv', db'.conversations.find? (fun c => c.id == 100) = some conv' ∧
        conv'.is_sold = true ∧ conv'.is_ended = true ∧
        conv'.pending_offer_price = none ∧
        conv'.pending_offer_from_user_id = none ∧
        conv'.pending_offer_at = none) := by
  refine ⟨by decide, ?_⟩
  obtain ⟨db', ev, t, hrun, htr, hsp, hsell, hbuy, -, hconv⟩ :=
    accept_creates_one_transaction_and_closes sDB2 [] aliceU 100 none 6
      sConv2 bikeItem (by decide) (by decide) (by decide) (by decide)
      (by decide)
  exact ⟨db', ev, t, hrun, htr, hsp, hsell, hbuy, by decide, hconv⟩

/-- C5: after a successful accept the conversation row's
`transaction_id` is still null — chat.py line 989 copies `transaction.id`
before the flush that generates it — even though the Transaction row itself
receives a real id at commit; consequently every `conversation_updated`
payload broadcast after the accept carries `transaction_id = none` and
`transaction = none`. -/
theorem accept_leaves_conversation_transaction_id_null
    (db : DB) (conns : List Nat) (u : User) (cid : Nat) (cp : Option Rat)
    (now : Nat) (conv : Conversation) (item : Item)
    (hfind : db.conversations.find? (fun c => c.id == cid) = some conv)
    (hpart : u.id = conv.user1_id ∨ u.id = conv.user2_id)
    (hprice : truthyI conv.pending_offer_price = true)
    (hfrom : truthyN conv.pending_offer_from_user_id = true)
    (hitem : db.items.find? (fun it => some it.id == conv.item_id) = some item) :
    ∃ db' ev t,
      respond_to_offer db conns u cid "accept" cp now =
        .ok (db', ev, .accepted t) ∧
      t.id = some db.next_id ∧
      db'.conversations.find? (fun c => c.id == cid) =
        some (applyAccept none now conv) ∧
      (applyAccept none now conv).transaction_id = none ∧
      ∀ uid p, Event.conversation_updated uid p ∈ ev →
        p.transaction_id = none ∧ p.transaction = none := by
  obtain ⟨db', ev, t, hrun, ht, -, -, hcv, hev⟩ :=
    respond_accept_spec db conns u cid cp now conv item hfind hpart hprice
      hfrom hitem
  refine ⟨db', ev, t, hrun, by rw [ht], hcv, rfl, ?_⟩
  intro uid p hp
  rw [hev] at hp
  rcases List.mem_append.mp hp with hp | hp
  · rcases List.mem_map.mp hp with ⟨x, -, hx⟩
    exact Event.noConfusion hx
  · have hpay := eq_payload_of_mem_broadcast hp
    subst hpay
    exact ⟨rfl, rfl⟩

/-- Witness for `accept_leaves_conversation_transaction_id_null` at `sDB2`
with both participants connected, so the broadcast actually fires. -/
theorem accept_leaves_conversation_transaction_id_null_witness :
    truthyI sConv2.pending_offer_price = true ∧
    ∃ db' ev t,
      respond_to_offer sDB2 [1, 2] aliceU 100 "accept" none 6 =
        .ok (db', ev, .accepted t) ∧
      t.id = some sDB2.next_id ∧
      db'.conversations.find? (fun c => c.id == 100) =
        some (applyAccept none 6 sConv2) ∧
      (applyAccept none 6 sConv2).transaction_id = none ∧
      ∀ uid p, Event.conversation_updated uid p ∈ ev →
        p.transaction_id = none ∧ p.transaction = none :=
  ⟨by decide,
    accept_leaves_conversation_transaction_id_null sDB2 [1, 2] aliceU 100
      none 6 sConv2 bikeItem (by decide) (by decide) (by decide) (by decide)
      (by decide)⟩

/-- Function `reassignItem` keeps identity, participants and the pending-offer
fields, sets the new item id, and always leaves `is_ended = false`. -/
theorem reassignItem_fields (i : Option Nat) (c : Conversation) :
    (reassignItem i c).id = c.id ∧
    (reassignItem i c).user1_id = c.user1_id ∧
    (reassignItem i c).user2_id = c.user2_id ∧
    (reassignItem i c).item_id = i ∧
    (reassignItem i c).is_ended = false ∧
    (reassignItem i c).pending_offer_price = c.pending_offer_price ∧
    (reassignItem i c).pending_offer_from_user_id =
      c.pending_offer_from_user_id ∧
    (reassignItem i c).pending_offer_at = c.pending_offer_at := by
  by_cases he : c.is_ended <;> by_cases hs : c.is_sold <;>
    simp [reassignItem, he, hs]

theorem pairPred_reassignItem (a b : Nat) (i : Option Nat)
    (c : Conversation) :
    pairPred a b (reassignItem i c) = pairPred a b c := by
  unfold pairPred
  rw [(reassignItem_fields i c).2.1, (reassignItem_fields i c).2.2.1]

/-- Replacing the first match in `l ++ [c]` when `l` has no match. -/
theorem replaceFirstWhere_append_right {α : Type} (p : α → Bool) (f : α → α)
    (l : List α) (c : α) (hl : l.find? p = none) (hc : p c = true) :
    replaceFirstWhere p f (l ++ [c]) = l ++ [f c] := by
  induction l with
  | nil => simp [replaceFirstWhere, hc]
  | cons a as ih =>
    by_cases hpa : p a
    · rw [List.find?_cons_of_pos _ hpa] at hl
      exact (Option.some_ne_none a hl).elim
    · rw [List.find?_cons_of_neg _ hpa] at hl
      simp [replaceFirstWhere, hpa, ih hl]

/-- Python `round(x, 2)` of an integer value is that value. -/
theorem round2_intCast (n : Int) : round2 ((n : Rat)) = (n : Rat) := by
  have h1 : ((n : Rat)) * 100 = ((n * 100 : Int) : Rat) := by
    push_cast
    ring
  have h2 : ((n * 100 : Int) : Rat).floor = n * 100 := by
    rw [Rat.floor_def']
    rw [Rat.num_intCast, Rat.den_intCast]
    simp
  unfold round2
  simp only []
  rw [h1, h2, sub_self]
  rw [if_pos (show (0 : Rat) < 1 / 2 by norm_num)]
  push_cast
  ring

/-- C8: with a pending offer present, countering with a price ≤ 0 (a
falsy or non-positive `counter_price`) is refused with the 400 validation
error "Invalid counter offer price" and — the exception being raised before
any commit — changes nothing; with a positive price the pending offer is
re-targeted: its from-user id becomes the responder and its price the
counter price truncated to integer cents (`int(counter_price * 100)`). -/
theorem counter_validates_price_and_flips_direction
    (db : DB) (conns : List Nat) (u : User) (cid : Nat) (q : Rat) (now : Nat)
    (conv : Conversation) (item : Item)
    (hfind : db.conversations.find? (fun c => c.id == cid) = some conv)
    (hpart : u.id = conv.user1_id ∨ u.id = conv.user2_id)
    (hprice : truthyI conv.pending_offer_price = true)
    (hfrom : truthyN conv.pending_offer_from_user_id = true)
    (hitem : db.items.find? (fun it => some it.id == conv.item_id) = some item) :
    (q ≤ 0 → respond_to_offer db conns u cid "counter" (some q) now =
      .error ⟨400, "Invalid counter offer price"⟩) ∧
    (0 < q → ∃ db' ev,
      respond_to_offer db conns u cid "counter" (some q) now =
        .ok (db', ev, .countered q) ∧
      db'.conversations.find? (fun c => c.id == cid) =
        some (setPendingOffer (py_int (q * 100)) u.id now conv) ∧
      Conversation.pending_offer_from_user_id
        (setPendingOffer (py_int (q * 100)) u.id now conv) = some u.id ∧
      Conversation.pending_offer_price
        (setPendingOffer (py_int (q * 100)) u.id now conv) =
          some (py_int (q * 100))) := by
  have hc1 : ("counter" == "accept") = false := rfl
  have hc2 : ("counter" == "reject") = false := rfl
  have hc3 : ("counter" == "counter") = true := rfl
  constructor
  · intro hq
    unfold respond_to_offer
    rw [hfind]
    simp only []
    rw [participant_check_false hpart]
    rw [if_neg (by simp)]
    rw [if_neg (by simp [hprice, hfrom])]
    rw [hitem]
    simp only []
    rw [hc1, if_neg (by simp), hc2, if_neg (by simp), hc3, if_pos rfl]
    rw [if_pos (by simp [hq])]
  · intro hq
    unfold respond_to_offer
    rw [hfind]
    simp only []
    rw [participant_check_false hpart]
    rw [if_neg (by simp)]
    rw [if_neg (by simp [hprice, hfrom])]
    rw [hitem]
    simp only []
    rw [hc1, if_neg (by simp), hc2, if_neg (by simp), hc3, if_pos rfl]
    rw [if_neg (by simp [truthyR, hq.ne', hq.not_le])]
    have hpc := @List.find?_some Conversation
      (fun c => c.id == cid) conv db.conversations hfind
    refine ⟨_, _, rfl, ?_, rfl, rfl⟩
    split <;> exact find?_replaceFirstWhere_self _ _ _ _ hfind hpc

/-- Witness for `counter_validates_price_and_flips_direction` at `sDB2`:
Alice counters Bob's pending $50 offer; $0 is rejected, $45 re-targets the
pending offer to user 1 at 4500 cents. -/
theorem counter_validates_price_and_flips_direction_witness :
    respond_to_offer sDB2 [] aliceU 100 "counter" (some 0) 6 =
      .error ⟨400, "Invalid counter offer price"⟩ ∧
    ∃ db' ev,
      respond_to_offer sDB2 [] aliceU 100 "counter" (some 45) 6 =
        .ok (db', ev, .countered 45) ∧
      db'.conversations.find? (fun c => c.id == 100) =
        some (setPendingOffer (py_int (45 * 100)) aliceU.id 6 sConv2) ∧
      Conversation.pending_offer_from_user_id
        (setPendingOffer (py_int (45 * 100)) aliceU.id 6 sConv2) =
          some aliceU.id ∧
      Conversation.pending_offer_price
        (setPendingOffer (py_int (45 * 100)) aliceU.id 6 sConv2) =
          some (py_int (45 * 100)) :=
  ⟨(counter_validates_price_and_flips_direction sDB2 [] aliceU 100 0 6
      sConv2 bikeItem (by decide) (by decide) (by decide) (by decide)
      (by decide)).1 (by decide),
    (counter_validates_price_and_flips_direction sDB2 [] aliceU 100 45 6
      sConv2 bikeItem (by decide) (by decide) (by decide) (by decide)
      (by decide)).2 (by decide)⟩

/-- C4 (amended): re-creating a conversation for an existing pair with a
different, truthy item id updates the item association and clears the
sale/end flags (`is_sold`, `is_ended`, and with them `sold_at`/`ended_at`/
`transaction_id`), but it does NOT reset the pending-offer fields: the
stale pending price, proposer and timestamp survive unchanged (chat.py
lines 221–231 touch only the sale flags). -/
theorem reassign_item_clears_sale_flags_but_keeps_pending
    (db : DB) (conns : List Nat) (uid : Nat) (data : ConversationCreate)
    (existing : Conversation) (u2 : User)
    (hself : (uid == data.user2_id) = false)
    (huser : db.users.find? (fun v => v.id == data.user2_id) = some u2)
    (hfind : db.conversations.find? (pairPred uid data.user2_id) =
      some existing)
    (htr : truthyN data.item_id = true)
    (hne : (existing.item_id != data.item_id) = true) :
    ∃ db' ev r, create_conversation db conns uid data = .ok (db', ev, r) ∧
      db'.conversations.find? (pairPred uid data.user2_id) =
        some (reassignItem data.item_id existing) ∧
      (reassignItem data.item_id existing).item_id = data.item_id ∧
      (reassignItem data.item_id existing).is_sold = false ∧
      (reassignItem data.item_id existing).is_ended = false ∧
      (reassignItem data.item_id existing).pending_offer_price =
        existing.pending_offer_price ∧
      Conversation.pending_offer_from_user_id
        (reassignItem data.item_id existing) =
          existing.pending_offer_from_user_id ∧
      (reassignItem data.item_id existing).pending_offer_at =
        existing.pending_offer_at := by
  unfold create_conversation
  simp only []
  rw [hself, if_neg (by simp)]
  rw [huser]
  simp only []
  rw [hfind]
  simp only []
  rw [if_pos (by simp [htr, hne])]
  have hpp := @List.find?_some Conversation (pairPred uid data.user2_id)
    existing db.conversations hfind
  have hpp2 : pairPred uid data.user2_id
      (reassignItem data.item_id existing) = true := by
    rw [pairPred_reassignItem]
    exact hpp
  refine ⟨_, _, _, rfl,
    find?_replaceFirstWhere_self _ _ _ _ hfind hpp2,
    (reassignItem_fields data.item_id existing).2.2.2.1,
    is_sold_reassignItem data.item_id existing,
    (reassignItem_fields data.item_id existing).2.2.2.2.1,
    (reassignItem_fields data.item_id existing).2.2.2.2.2.1,
    (reassignItem_fields data.item_id existing).2.2.2.2.2.2.1,
    (reassignItem_fields data.item_id existing).2.2.2.2.2.2.2⟩

/-- Witness for `reassign_item_clears_sale_flags_but_keeps_pending`: Alice
re-creates her conversation with Bob for item 11 while Bob's $50 offer on
item 10 is still pending. -/
theorem reassign_item_clears_sale_flags_but_keeps_pending_witness :
    ∃ db' ev r,
      create_conversation sDB2 [] 1 ⟨2, some 11⟩ = .ok (db', ev, r) ∧
      db'.conversations.find? (pairPred 1 2) =
        some (reassignItem (some 11) sConv2) ∧
      (reassignItem (some 11) sConv2).item_id = some 11 ∧
      (reassignItem (some 11) sConv2).is_sold = false ∧
      (reassignItem (some 11) sConv2).is_ended = false ∧
      (reassignItem (some 11) sConv2).pending_offer_price =
        sConv2.pending_offer_price ∧
      Conversation.pending_offer_from_user_id (reassignItem (some 11) sConv2) =
        sConv2.pending_offer_from_user_id ∧
      (reassignItem (some 11) sConv2).pending_offer_at =
        sConv2.pending_offer_at :=
  reassign_item_clears_sale_flags_but_keeps_pending sDB2 [] 1 ⟨2, some 11⟩
    sConv2 bobU (by decide) (by decide) (by decide) (by decide) (by decide)

/-- C4, counterexample to the claim as stated: in the concrete
pending-offer state `sDB2`, re-creating the pair conversation with item 11
leaves the stale pending-offer fields in place — the pending price is still
5000 cents (hence not absent), contradicting "pending price, proposer,
timestamp become absent". -/
theorem reassign_item_does_not_reset_pending_counterexample :
    ∃ db' ev r,
      create_conversation sDB2 [] 1 ⟨2, some 11⟩ = .ok (db', ev, r) ∧
      db'.conversations.find? (fun c => c.id == 100) =
        some { sConv2 with item_id := some 11 } ∧
      ({ sConv2 with item_id := some 11 } : Conversation).item_id =
        some 11 ∧
      Conversation.pending_offer_price
        ({ sConv2 with item_id := some 11 } : Conversation) = some 5000 ∧
      ¬ Conversation.pending_offer_price
        ({ sConv2 with item_id := some 11 } : Conversation) = none := by
  refine ⟨_, _, _, rfl, ?_, ?_, ?_, ?_⟩ <;> decide

/-- C6: the handler checks only membership in the conversation,
never that the caller differs from the pending offer's author: in the
reachable state `sDB2` the pending offer is Bob's own, and Bob himself can
invoke accept — a Transaction is created (with Bob as buyer). -/
theorem proposer_can_accept_own_offer :
    Reachable sDB2 ∧
    sDB2.conversations.find? (fun c => c.id == 100) = some sConv2 ∧
    sConv2.pending_offer_from_user_id = some bobU.id ∧
    (bobU.id = sConv2.user1_id ∨ bobU.id = sConv2.user2_id) ∧
    ∃ db' ev t,
      respond_to_offer sDB2 [] bobU 100 "accept" none 6 =
        .ok (db', ev, .accepted t) ∧
      t.buyer_id = bobU.id ∧ t.seller_id = aliceU.id ∧
      db'.transactions = sDB2.transactions ++ [t] := by
  refine ⟨sDB2_reachable, by decide, by decide, by decide,
    _, _, _, rfl, ?_, ?_, ?_⟩ <;> decide

/-- C3 (code bug): rejecting Bob's pending offer clears the pending
fields, appends Alice's rejection Message and broadcasts the conversation
update — but creates NO notification for Bob: chat.py line 1098 reads
`conversation.pending_offer_from_user_id` from the object whose field was
just cleared at line 1081, so `offer_sender_id` is always `None` and the
"Offer Rejected" notification block is dead code. -/
theorem reject_never_notifies_offer_author :
    ∃ db' ev,
      respond_to_offer sDB2 [1, 2] aliceU 100 "reject" none 6 =
        .ok (db', ev, .rejected) ∧
      db'.notifications = sDB2.notifications ∧
      db'.conversations.find? (fun c => c.id == 100) =
        some (applyReject 6 sConv2) ∧
      (applyReject 6 sConv2).pending_offer_price = none ∧
      (applyReject 6 sConv2).pending_offer_from_user_id = none ∧
      (applyReject 6 sConv2).pending_offer_at = none ∧
      (∃ m, db'.messages = sDB2.messages ++ [m] ∧
        m.sender_id = aliceU.id ∧ m.content = "❌ Rejected the offer") ∧
      (ev.filter (fun e => match e with
        | Event.conversation_updated _ _ => true
        | _ => false)).length = 2 := by
  refine ⟨_, _, rfl, ?_, ?_, ?_, ?_, ?_,
    ⟨⟨103, 100, 1, "❌ Rejected the offer", false, none, 6⟩, ?_, ?_, ?_⟩, ?_⟩
    <;> decide

/-- A first rating by a rater who has not rated this transaction yet inserts
a fresh Rating row (chat.py lines 1286–1297). -/
theorem rate_user_insert_spec
    (db : DB) (u : User) (txnid rated : Nat) (v : Int) (c : Option String)
    (txn : TransactionRow)
    (htxn : db.transactions.find? (fun t => t.id == some txnid) = some txn)
    (hparty : u.id = txn.seller_id ∨ u.id = txn.buyer_id)
    (hrated : (rated != (if txn.seller_id == u.id then txn.buyer_id
      else txn.seller_id)) = false)
    (hnone : db.ratings.find? (fun r =>
      r.transaction_id == txnid && r.rater_id == u.id) = none) :
    rate_user db u txnid ⟨rated, v, c⟩ =
      .ok ({ db with
        ratings := db.ratings ++ [⟨db.next_id, txnid, u.id, rated, v, c⟩]
        next_id := db.next_id + 1 },
        ⟨db.next_id, txnid, u.id, rated, v, c⟩) := by
  unfold rate_user
  rw [htxn]
  simp only []
  have hp1 : (txn.seller_id != u.id && txn.buyer_id != u.id) = false := by
    rcases hparty with h | h <;> simp [← h]
  rw [hp1, if_neg (by simp)]
  rw [hrated, if_neg (by simp)]
  rw [hnone]

/-- A repeat rating by the same rater updates the existing row in place
(chat.py lines 1269–1284): no new row, same row id. -/
theorem rate_user_update_spec
    (db : DB) (u : User) (txnid rated : Nat) (v : Int) (c : Option String)
    (txn : TransactionRow) (ex : RatingRow)
    (htxn : db.transactions.find? (fun t => t.id == some txnid) = some txn)
    (hparty : u.id = txn.seller_id ∨ u.id = txn.buyer_id)
    (hrated : (rated != (if txn.seller_id == u.id then txn.buyer_id
      else txn.seller_id)) = false)
    (hfound : db.ratings.find? (fun r =>
      r.transaction_id == txnid && r.rater_id == u.id) = some ex) :
    rate_user db u txnid ⟨rated, v, c⟩ =
      .ok
        ({ db with
            ratings := replaceFirstWhere
                (fun r => r.transaction_id == txnid && r.rater_id == u.id)
                (fun r => { r with rating := v, comment := c }) db.ratings },
          { ex with rating := v, comment := c }) := by
  unfold rate_user
  rw [htxn]
  simp only []
  have hp1 : (txn.seller_id != u.id && txn.buyer_id != u.id) = false := by
    rcases hparty with h | h <;> simp [← h]
  rw [hp1, if_neg (by simp)]
  rw [hrated, if_neg (by simp)]
  rw [hfound]

/-- Summary over a single received rating: the average is
exactly that score (an integer rounds to itself) and the viewer sees their
own rating. -/
theorem summary_of_single_rating (db : DB) (viewer rated : Nat)
    (r : RatingRow)
    (hflt : db.ratings.filter (fun x => x.rated_user_id == rated) = [r])
    (hr : r.rater_id = viewer) :
    get_user_rating_summary db viewer rated =
      ⟨some ((r.rating : Rat)), 1, some r.rating⟩ := by
  unfold get_user_rating_summary
  rw [hflt]
  simp only []
  rw [if_neg (show ¬(([r] : List RatingRow).isEmpty = true) by simp)]
  have hv : ([r] : List RatingRow).find? (fun x => x.rater_id == viewer) =
      some r := by
    rw [List.find?_cons_of_pos]
    simp [hr]
  rw [hv]
  have havg : round2 ((((r.rating : Rat)) + 0) / (([r] : List RatingRow).length : Rat)) =
      (r.rating : Rat) := by
    norm_num
    exact round2_intCast r.rating
  simp [havg, round2_intCast]

/-- C9: a second rating by the same rater for the same transaction
updates the existing Rating row in place — the row count is unchanged and
the row keeps its id — and the rated user's summary (over a store that had
no other ratings for them) averages only the latest value: an integer score
rounded to 2 decimals is itself, count 1, and the viewer sees their own
latest rating. -/
theorem second_rating_updates_row_in_place
    (db : DB) (u : User) (txnid rated : Nat) (v1 v2 : Int)
    (c1 c2 : Option String) (txn : TransactionRow)
    (htxn : db.transactions.find? (fun t => t.id == some txnid) = some txn)
    (hparty : u.id = txn.seller_id ∨ u.id = txn.buyer_id)
    (hrated : (rated != (if txn.seller_id == u.id then txn.buyer_id
      else txn.seller_id)) = false)
    (hnone : db.ratings.find? (fun r =>
      r.transaction_id == txnid && r.rater_id == u.id) = none) :
    ∃ db1 r1 db2 r2,
      rate_user db u txnid ⟨rated, v1, c1⟩ = .ok (db1, r1) ∧
      rate_user db1 u txnid ⟨rated, v2, c2⟩ = .ok (db2, r2) ∧
      db1.ratings = db.ratings ++ [r1] ∧
      db2.ratings.length = db1.ratings.length ∧
      r2.id = r1.id ∧ r2.rating = v2 ∧
      (db.ratings.filter (fun x => x.rated_user_id == rated) = [] →
        get_user_rating_summary db2 u.id rated =
          ⟨some ((v2 : Rat)), 1, some v2⟩) := by
  have h1 := rate_user_insert_spec db u txnid rated v1 c1 txn htxn hparty
    hrated hnone
  have hfound : ((db.ratings ++
        [(⟨db.next_id, txnid, u.id, rated, v1, c1⟩ : RatingRow)]).find?
      (fun r => r.transaction_id == txnid && r.rater_id == u.id)) =
      some ⟨db.next_id, txnid, u.id, rated, v1, c1⟩ :=
    find?_append_right _ _ _ hnone (by simp)
  have h2 := rate_user_update_spec
    { db with
        ratings := db.ratings ++ [⟨db.next_id, txnid, u.id, rated, v1, c1⟩]
        next_id := db.next_id + 1 }
    u txnid rated v2 c2 txn ⟨db.next_id, txnid, u.id, rated, v1, c1⟩
    htxn hparty hrated hfound
  refine ⟨_, _, _, _, h1, h2, rfl, length_replaceFirstWhere _ _ _, rfl, rfl,
    ?_⟩
  intro hflt
  have hrep : replaceFirstWhere
      (fun r => r.transaction_id == txnid && r.rater_id == u.id)
      (fun r => { r with rating := v2, comment := c2 })
      (db.ratings ++ [⟨db.next_id, txnid, u.id, rated, v1, c1⟩]) =
      db.ratings ++ [⟨db.next_id, txnid, u.id, rated, v2, c2⟩] :=
    replaceFirstWhere_append_right _ _ _ _ hnone (by simp)
  have hflt2 : ((db.ratings ++
        [(⟨db.next_id, txnid, u.id, rated, v2, c2⟩ : RatingRow)]).filter
      (fun x => x.rated_user_id == rated)) =
      [⟨db.next_id, txnid, u.id, rated, v2, c2⟩] := by
    rw [List.filter_append, hflt]
    simp
  have hfltX : ((replaceFirstWhere
      (fun r => r.transaction_id == txnid && r.rater_id == u.id)
      (fun r => { r with rating := v2, comment := c2 })
      (db.ratings ++ [⟨db.next_id, txnid, u.id, rated, v1, c1⟩])).filter
      (fun x => x.rated_user_id == rated)) =
      [⟨db.next_id, txnid, u.id, rated, v2, c2⟩] := by
    rw [hrep]
    exact hflt2
  exact summary_of_single_rating _ u.id rated
    ⟨db.next_id, txnid, u.id, rated, v2, c2⟩ hfltX rfl

/-- Witness for `second_rating_updates_row_in_place`: Bob rates Alice 4 then
5 on the scenario transaction; the row is updated, and Alice's summary is
average 5 over one rating. -/
theorem second_rating_updates_row_in_place_witness :
    ∃ db1 r1 db2 r2,
      rate_user sDB3 bobU 103 ⟨1, 4, none⟩ = .ok (db1, r1) ∧
      rate_user db1 bobU 103 ⟨1, 5, none⟩ = .ok (db2, r2) ∧
      db1.ratings = sDB3.ratings ++ [r1] ∧
      db2.ratings.length = db1.ratings.length ∧
      r2.id = r1.id ∧ r2.rating = 5 ∧
      (sDB3.ratings.filter (fun x => x.rated_user_id == 1) = [] →
        get_user_rating_summary db2 bobU.id 1 =
          ⟨some (((5 : Int) : Rat)), 1, some 5⟩) :=
  second_rating_updates_row_in_place sDB3 bobU 103 1 4 5 none none sTxn
    (by decide) (by decide) (by decide) (by decide)

theorem pairPred_symm (a b : Nat) (c : Conversation) :
    pairPred a b c = pairPred b a c := by
  simp [pairPred, Bool.or_comm]

/-- After any successful `create_conversation`, the store holds a
conversation matching the unordered pair whose id is the one returned. -/
theorem create_conversation_finds_pair
    (db : DB) (conns : List Nat) (uid : Nat) (data : ConversationCreate)
    (db' : DB) (ev : List Event) (r : ConversationResponse)
    (h : create_conversation db conns uid data = .ok (db', ev, r)) :
    ∃ c, db'.conversations.find? (pairPred uid data.user2_id) = some c ∧
      c.id = r.id := by
  unfold create_conversation at h
  simp only [] at h
  split at h
  · exact absurd h (by simp)
  split at h
  · exact absurd h (by simp)
  split at h
  · rename_i existing heq
    split at h <;>
      simp only [Except.ok.injEq, Prod.mk.injEq] at h <;>
      obtain ⟨h1, -, h3⟩ := h <;>
      subst h1 <;> subst h3
    · refine ⟨reassignItem data.item_id existing, ?_, ?_⟩
      · exact find?_replaceFirstWhere_self _ _ _ _ heq
          (by rw [pairPred_reassignItem]
              exact @List.find?_some Conversation
                (pairPred uid data.user2_id) existing db.conversations heq)
      · rfl
    · exact ⟨existing, heq, rfl⟩
  · rename_i heq
    simp only [Except.ok.injEq, Prod.mk.injEq] at h
    obtain ⟨h1, -, h3⟩ := h
    subst h1
    subst h3
    refine ⟨_, find?_append_right _ _ _ heq (by simp [pairPred]), rfl⟩

/-- A successful `create_conversation` on a pair that already has a
conversation returns that row's id and creates no new row. -/
theorem create_conversation_reuses_existing
    (db : DB) (conns : List Nat) (uid : Nat) (data : ConversationCreate)
    (db' : DB) (ev : List Event) (r : ConversationResponse)
    (c0 : Conversation)
    (hc0 : db.conversations.find? (pairPred uid data.user2_id) = some c0)
    (h : create_conversation db conns uid data = .ok (db', ev, r)) :
    r.id = c0.id ∧ db'.conversations.length = db.conversations.length := by
  unfold create_conversation at h
  simp only [] at h
  split at h
  · exact absurd h (by simp)
  split at h
  · exact absurd h (by simp)
  split at h
  · rename_i existing heq
    rw [hc0] at heq
    injection heq with heq
    subst heq
    split at h <;>
      simp only [Except.ok.injEq, Prod.mk.injEq] at h <;>
      obtain ⟨h1, -, h3⟩ := h <;>
      subst h1 <;> subst h3
    · exact ⟨(reassignItem_fields data.item_id c0).1,
        length_replaceFirstWhere _ _ _⟩
    · exact ⟨rfl, rfl⟩
  · rename_i heq
    rw [hc0] at heq
    exact Option.noConfusion heq

/-- C10: creating a conversation once as A→B and once as B→A returns
the same conversation id — the lookup matches the unordered pair — and the
second call adds no row. -/
theorem create_conversation_symmetric_idempotent
    (db db1 db2 : DB) (conns1 conns2 : List Nat) (a b : Nat)
    (item1 item2 : Option Nat) (ev1 ev2 : List Event)
    (r1 r2 : ConversationResponse)
    (h1 : create_conversation db conns1 a ⟨b, item1⟩ = .ok (db1, ev1, r1))
    (h2 : create_conversation db1 conns2 b ⟨a, item2⟩ = .ok (db2, ev2, r2)) :
    r2.id = r1.id ∧ db2.conversations.length = db1.conversations.length := by
  obtain ⟨c1, hc1, hid1⟩ := create_conversation_finds_pair _ _ _ _ _ _ _ h1
  have hc1' : db1.conversations.find? (pairPred b a) = some c1 := by
    rw [find?_congr (pairPred b a) (pairPred a b)
      (fun c => (pairPred_symm a b c).symm)]
    exact hc1
  obtain ⟨hid2, hlen⟩ := create_conversation_reuses_existing _ _ _ _ _ _ _
    c1 hc1' h2
  exact ⟨hid2.trans hid1, hlen⟩

/-- Witness for `create_conversation_symmetric_idempotent`: Bob opens the
conversation with Alice, then Alice opens it with Bob; the same row id 100
comes back and no second row appears. -/
theorem create_conversation_symmetric_idempotent_witness :
    ∃ r1 r2 : ConversationResponse,
      create_conversation sDB0 [] 2 ⟨1, some 10⟩ = .ok (sDB1, [], r1) ∧
      create_conversation sDB1 [] 1 ⟨2, some 10⟩ = .ok (sDB1, [], r2) ∧
      r2.id = r1.id ∧
      sDB1.conversations.length = sDB1.conversations.length :=
  ⟨_, _, rfl, rfl,
    (create_conversation_symmetric_idempotent sDB0 sDB1 sDB1 [] [] 2 1
      (some 10) (some 10) [] [] _ _ rfl rfl).1,
    (create_conversation_symmetric_idempotent sDB0 sDB1 sDB1 [] [] 2 1
      (some 10) (some 10) [] [] _ _ rfl rfl).2⟩

end Marketplace
